import Mathlib

/-!
Shallow embedding of the selection-expression language and resolution engine
of the ycbvideo repository (`src/ycbvideo/{frameselection,selectors,parsing,
descriptor_creation}.py`), with theorems settling the frozen claims about it.

Strings are modelled as Lean `String`s; Python exceptions are modelled with
`Except`; Python `int` values that can be negative (range steps) are `Int`.
-/

namespace YcbVideo

/-- ASCII decimal digit test: `'0' ≤ c ≤ '9'`. The identifiers handled by the
library are ASCII, where this coincides with Python's `str.isdigit` per
character. -/
def isDigitChar (c : Char) : Bool := 48 ≤ c.toNat && c.toNat ≤ 57

/-- Python `s.isdigit()` for ASCII strings: non-empty and all digits. -/
def isDigitStr (s : String) : Bool := !s.data.isEmpty && s.data.all isDigitChar

/-- One step of reading a decimal number: `acc * 10 + digit c`. -/
def digitStep (a : Nat) (c : Char) : Nat := 10 * a + (c.toNat - 48)

/-- Python `int(s)` for a digit string. -/
def digitsToNat (s : String) : Nat := s.data.foldl digitStep 0

/-- Decimal digits (most significant first) of `n`, fuel-based so that the
kernel can evaluate it. `natToDigitsAux fuel n` is the representation of `n`
whenever `n ≤ fuel`, and `[]` for `n = 0`. -/
def natToDigitsAux : Nat → Nat → List Char
  | 0, _ => []
  | fuel + 1, n =>
      if n = 0 then []
      else natToDigitsAux fuel (n / 10) ++ [Nat.digitChar (n % 10)]

/-- Decimal representation of `n`, as Python `str(int)` renders a
non-negative number. -/
def natRepr (n : Nat) : String :=
  if n = 0 then "0" else ⟨natToDigitsAux (n + 1) n⟩

/-- Python `"{:0Wd}".format(n)`: the decimal representation of `n` left-padded
with zeros to width `w`. -/
def zeroPad (w : Nat) (n : Nat) : String :=
  let r := natRepr n
  ⟨List.replicate (w - r.length) '0' ++ r.data⟩

/-- `frameselection.normalize_numbered_sequence_selection_item`: a digit
string of length at most 4 is zero-padded to width 4, anything else is a
`ValueError`. -/
def normalize_numbered_sequence_selection_item (item : String) : Except String String :=
  if isDigitStr item ∧ item.length ≤ 4 then Except.ok (zeroPad 4 (digitsToNat item))
  else Except.error ("Not a numbered frame sequence selection item: " ++ item)

/-- `frameselection.normalize_numbered_frame_selection_item`: a digit string
of length at most 6 is zero-padded to width 6, anything else is a
`ValueError`. -/
def normalize_numbered_frame_selection_item (item : String) : Except String String :=
  if isDigitStr item ∧ item.length ≤ 6 then Except.ok (zeroPad 6 (digitsToNat item))
  else Except.error ("Not a numbered frame selection item: " ++ item)

example : normalize_numbered_sequence_selection_item "12" = Except.ok "0012" := by rfl
example : normalize_numbered_frame_selection_item "12" = Except.ok "000012" := by rfl
example : normalize_numbered_sequence_selection_item "0012" = Except.ok "0012" := by rfl
example : digitsToNat "0042" = 42 := by rfl

/-- The errors the embedded code can signal. The first four mirror
`ValueError`, `selectors.MissingElementError`, `selectors.EmptySelectionError`
and `parsing.SelectionExpressionError` with the data they carry. The `io…`
constructors mirror the `IOError`s of `descriptor_creation.py` and
`parsing.parse_selection_expressions`, keeping structured the values their
f-string messages interpolate. -/
inductive Err where
  | valueError (message : String)
  | missingElement (message element : String) (elements : List String)
  | emptySelection (message expression : String) (elements : List String)
  | selectionExpressionError (message expression : String)
  | ioSequenceMissing (element : String)
  | ioFrameMissing (sequence frame : String)
  | ioFilesMissing (sequence frame : String) (missing : List String)
  | invalidSelectionExpression (expression : String) (reportedIndex : Nat)
  deriving DecidableEq, Repr

/-- The tagged union of `selectors.py`'s `ElementSelector` subclasses, with
the constructor arguments each `__init__` stores. -/
inductive ElementSelector where
  | single (kind expression element : String)
  | list (kind expression : String) (elements : List String)
  | star (kind : String)
  | data
  | dataSyn
  | range (kind expression : String) (start stop : Option String) (step : Int)
  deriving DecidableEq, Repr

/-- Python truthiness of an `Optional[str]`: `None` and the empty string are
falsy; a falsy value is treated like an absent one. -/
def truthyOpt : Option String → Option String
  | none => none
  | some s => if s = "" then none else some s

/-- Python `list.index`: position of the first occurrence, `None` if absent
(where Python raises `ValueError`). -/
def listIndex (x : String) : List String → Option Nat
  | [] => none
  | y :: ys => if y = x then some 0 else (listIndex x ys).map (· + 1)

/-- The index collection of Python list slicing `l[start:stop:step]`:
starting at `i`, take `l[i]` while `i` is on `step`'s side of `stop` and
advance by `step`. `fuel` only bounds the recursion. -/
def sliceGo (l : List String) (stop step : Int) : Nat → Int → List String
  | 0, _ => []
  | fuel + 1, i =>
      if (step > 0 ∧ i < stop) ∨ (step < 0 ∧ i > stop) then
        (match l[i.toNat]? with
         | some x => [x]
         | none => []) ++ sliceGo l stop step fuel (i + step)
      else []

/-- Python `l[start:stop:step]` for absent or non-negative `start`/`stop`
(the only forms `list.index` can produce), following CPython's
`slice.indices`: for a positive step the defaults are `0` and `len(l)`, for a
negative step they are `len(l) - 1` and `-1`, and given bounds are clamped
from above. -/
def pySlice (l : List String) (start stop : Option Nat) (step : Int) : List String :=
  let n : Int := l.length
  if step > 0 then
    let s : Int := match start with | none => 0 | some i => min (i : Int) n
    let e : Int := match stop with | none => n | some i => min (i : Int) n
    sliceGo l e step l.length s
  else
    let s : Int := match start with | none => n - 1 | some i => min (i : Int) (n - 1)
    let e : Int := match stop with | none => -1 | some i => min (i : Int) (n - 1)
    sliceGo l e step l.length s

example : pySlice ["a", "b", "c", "d"] none none 1 = ["a", "b", "c", "d"] := by rfl
example : pySlice ["a", "b", "c", "d"] (some 1) (some 3) 1 = ["b", "c"] := by rfl
example : pySlice ["a", "b", "c", "d"] none none (-1) = ["d", "c", "b", "a"] := by rfl
example : pySlice ["a", "b", "c", "d"] (some 3) (some 1) (-1) = ["d", "c"] := by rfl
example : pySlice ["a", "b", "c", "d"] none none (-2) = ["d", "b"] := by rfl
example : pySlice ["a", "b", "c", "d"] (some 2) (some 2) 1 = [] := by rfl

/-- Python `expression.lstrip('[').rstrip(']')`. -/
def stripBrackets (l : List Char) : List Char :=
  ((l.dropWhile (· = '[')).reverse.dropWhile (· = ']')).reverse

/-- Split a character list on a separator character, Python `str.split(sep)`:
`n` separators yield `n + 1` (possibly empty) pieces. -/
def splitOnChar (c : Char) : List Char → List (List Char)
  | [] => [[]]
  | x :: xs =>
      let r := splitOnChar c xs
      if x = c then [] :: r
      else
        match r with
        | [] => [[x]]
        | y :: ys => (x :: y) :: ys

/-- Split a string on a separator character. -/
def splitStr (c : Char) (s : String) : List String :=
  (splitOnChar c s.data).map fun cs => ⟨cs⟩

example : splitStr '/' "1/2" = ["1", "2"] := by rfl
example : splitStr ':' ":" = ["", ""] := by rfl
example : splitStr ':' "::-2" = ["", "", "-2"] := by rfl
example : splitStr ',' "2,3,5" = ["2", "3", "5"] := by rfl

/-- `selectors.ListSelector.get_list_expression_element`: element `index` of
the list expression with its brackets stripped. -/
def get_list_expression_element (expression : String) (index : Nat) : String :=
  (((splitOnChar ',' (stripBrackets expression.data)).map fun cs => (⟨cs⟩ : String)).getD
    index "")

/-- Loop of `selectors.ListSelector.select`: find the first element, in
declared order, that is not available, and report it with its position. -/
def listSelectLoop (kind expression : String) (elements : List String) :
    Nat → List String → Except Err Unit
  | _, [] => Except.ok ()
  | index, e :: rest =>
      if e ∈ elements then listSelectLoop kind expression elements (index + 1) rest
      else
        Except.error (.missingElement
          ("List element missing: " ++ kind ++ " " ++
            get_list_expression_element expression index ++ " at index " ++ toString index)
          e elements)

/-- Tail of `selectors.RangeSelector.select`: slice the (already filtered)
elements with the resolved indices and reject an empty expansion. -/
def range_select_expand (expression : String) (step : Int) (elements : List String)
    (startIndex stopIndex : Option Nat) : Except Err (List String) :=
  let expansion := pySlice elements startIndex stopIndex step
  if expansion = [] then
    Except.error (.emptySelection ("No elements selected: " ++ expression) expression elements)
  else Except.ok expansion

/-- Middle of `selectors.RangeSelector.select`: resolve the `stop` bound by
exact lookup (a miss is a `MissingElementError`). -/
def range_select_stop (kind expression : String) (stop : Option String) (step : Int)
    (elements : List String) (startIndex : Option Nat) : Except Err (List String) :=
  match truthyOpt stop with
  | some t =>
      match listIndex t elements with
      | none =>
          Except.error (.missingElement ("Range stop element missing: " ++ kind ++ " " ++ t)
            t elements)
      | some ti => range_select_expand expression step elements startIndex (some ti)
  | none => range_select_expand expression step elements startIndex none

/-- `selectors.RangeSelector.select` after the non-empty check: on the
sequence axis restrict to purely numeric identifiers (excluding `data_syn`),
resolve `start`/`stop` by exact lookup, slice, and reject an empty
expansion. -/
def range_select (kind expression : String) (start stop : Option String) (step : Int)
    (elements0 : List String) : Except Err (List String) :=
  let elements := if kind = "sequence" then elements0.filter (fun e => isDigitStr e) else elements0
  match truthyOpt start with
  | some s =>
      match listIndex s elements with
      | none =>
          Except.error (.missingElement ("Range start element missing: " ++ expression) s elements)
      | some si => range_select_stop kind expression stop step elements (some si)
  | none => range_select_stop kind expression stop step elements none

/-- `ElementSelector.select` with the dispatch over the subclasses: the
common `check_elements_to_select_from` guard, then each subclass's
`select`. -/
def ElementSelector.select (sel : ElementSelector) (elements : List String) :
    Except Err (List String) :=
  if elements = [] then Except.error (.valueError "No elements to select from")
  else
    match sel with
    | .single kind expression element =>
        if element ∈ elements then Except.ok [element]
        else
          Except.error (.missingElement ("Single element missing: " ++ kind ++ " " ++ expression)
            element elements)
    | .list kind expression toSelect =>
        match listSelectLoop kind expression elements 0 toSelect with
        | Except.error e => Except.error e
        | Except.ok _ => Except.ok toSelect
    | .star _ => Except.ok elements
    | .data => Except.ok (elements.filter (fun e => e ≠ "data_syn"))
    | .dataSyn =>
        if "data_syn" ∈ elements then Except.ok ["data_syn"]
        else Except.error (.missingElement "data_syn sequence missing" "data_syn" elements)
    | .range kind expression start stop step =>
        range_select kind expression start stop step elements

example : ElementSelector.select (.star "frame") ["a", "b"] = Except.ok ["a", "b"] := by rfl
example : ElementSelector.select .data ["0001", "data_syn"] = Except.ok ["0001"] := by rfl
example :
    ElementSelector.select (.range "frame" ":" none none 1) ["x", "y", "z"] =
      Except.ok ["x", "y", "z"] := by rfl
example :
    ElementSelector.select (.range "sequence" "0:2" (some "0000") (some "0002") 1)
      ["0000", "0001", "0002", "data_syn"] = Except.ok ["0000", "0001"] := by rfl

/-- `selectors.RangeSelector.check_range_elements`, run by the constructor:
`step` must be non-zero, and when both bounds are truthy, a positive step
forbids `int(start) > int(stop)` and a negative step forbids
`int(start) < int(stop)`. -/
def check_range_elements (expression : String) (start stop : Option String) (step : Int) :
    Except Err Unit :=
  if step = 0 then Except.error (.valueError "step must not be 0")
  else
    match truthyOpt start, truthyOpt stop with
    | some s, some t =>
        if step > 0 ∧ digitsToNat s > digitsToNat t then
          Except.error (.valueError ("step > 0 requires start < stop: " ++ expression))
        else if step < 0 ∧ digitsToNat s < digitsToNat t then
          Except.error (.valueError ("step < 0 requires start > stop: " ++ expression))
        else Except.ok ()
    | _, _ => Except.ok ()

/-- `selectors.RangeSelector.__init__`: run the constructor's check, then
build the selector value. -/
def mkRangeSelector (kind expression : String) (start stop : Option String) (step : Int) :
    Except Err ElementSelector :=
  match check_range_elements expression start stop step with
  | Except.error e => Except.error e
  | Except.ok _ => Except.ok (.range kind expression start stop step)

/-- `selectors.Selector`: the expression with its sequence-axis and
frame-axis selectors. -/
structure Selector where
  expression : String
  sequence_selector : ElementSelector
  frame_selector : ElementSelector
  deriving DecidableEq, Repr

/-- `Selector.select_sequences`. -/
def Selector.select_sequences (s : Selector) (sequences : List String) :
    Except Err (List String) :=
  s.sequence_selector.select sequences

/-- `Selector.select_frames`. -/
def Selector.select_frames (s : Selector) (frames : List String) : Except Err (List String) :=
  s.frame_selector.select frames

/-- Modelled from the spec: `utils.normalize_element`, referenced by
`parsing.py` and `frame_access.py`, is absent from the repository's files
(`utils.py` holds only `validate_directory_path` and `expand_range`). Per
spec 4.1 normalization fails when the token is not all digits or its digit
length exceeds the axis's canonical width (4 for sequence, 6 for frame), and
success zero-pads to the canonical width. -/
def normalize_element (item : String) (kind : String) : Except Err String :=
  let w := if kind = "sequence" then 4 else 6
  if isDigitStr item ∧ item.length ≤ w then Except.ok (zeroPad w (digitsToNat item))
  else Except.error (.valueError ("Invalid element: " ++ item))

/-- Modelled from the spec: `utils.normalize_optional_element` (spec 4.1's
`normalize_optional`) passes `None` through and otherwise delegates to
`normalize_element`. -/
def normalize_optional_element (item : Option String) (kind : String) :
    Except Err (Option String) :=
  match item with
  | none => Except.ok none
  | some s => (normalize_element s kind).map some

/-- Match of `Parser._ELEMENT_TEMPLATE`, the regex `[0-9]{1,6}`. -/
def isElementTok (s : String) : Bool := isDigitStr s && decide (s.length ≤ 6)

/-- `Parser._single_element_expression`: a digit string within the axis's
width parses as a `SingleElementSelector` holding the normalized element. -/
def single_element_expression (expression kind : String) :
    Except Err (Option ElementSelector) :=
  let maxLength := if kind = "sequence" then 4 else 6
  if isDigitStr expression ∧ expression.length ≤ maxLength then
    match normalize_element expression kind with
    | Except.error e => Except.error e
    | Except.ok e => Except.ok (some (.single kind expression e))
  else Except.ok none

/-- Match of `Parser._LIST_PATTERN`, the regex
`^\[ELEM(,ELEM)*\]$`: the bracketed comma-separated element strings, if the
expression has that shape. -/
def listPatternMatch (expression : String) : Option (List String) :=
  match expression.data with
  | [] => none
  | c :: rest =>
      if c = '[' ∧ rest ≠ [] ∧ rest.getLast? = some ']' then
        let inner := rest.dropLast
        let parts := (splitOnChar ',' inner).map fun cs => (⟨cs⟩ : String)
        if parts.all isElementTok then some parts else none
      else none

example : listPatternMatch "[2,3,5]" = some ["2", "3", "5"] := by rfl
example : listPatternMatch "[2,3,5" = none := by rfl
example : listPatternMatch "[]" = none := by rfl
example : listPatternMatch "2,3" = none := by rfl

/-- `mapM` for `normalize_element` over the matched list elements, mirroring
the list comprehension in `Parser._list_expression`. -/
def normalizeAll (kind : String) : List String → Except Err (List String)
  | [] => Except.ok []
  | e :: rest =>
      match normalize_element e kind with
      | Except.error err => Except.error err
      | Except.ok n =>
          match normalizeAll kind rest with
          | Except.error err => Except.error err
          | Except.ok ns => Except.ok (n :: ns)

/-- `Parser._list_expression`. -/
def list_expression (expression kind : String) : Except Err (Option ElementSelector) :=
  match listPatternMatch expression with
  | none => Except.ok none
  | some elems =>
      match normalizeAll kind elems with
      | Except.error e => Except.error e
      | Except.ok normalized => Except.ok (some (.list kind expression normalized))

/-- `Parser._star_expression`. -/
def star_expression (expression kind : String) : Except Err (Option ElementSelector) :=
  if expression = "*" then Except.ok (some (.star kind)) else Except.ok none

/-- `Parser._data_expression` (only ever called with kind `'sequence'`). -/
def data_expression (expression : String) : Except Err (Option ElementSelector) :=
  if expression = "data" then Except.ok (some .data) else Except.ok none

/-- `Parser._data_syn_expression` (only ever called with kind `'sequence'`). -/
def data_syn_expression (expression : String) : Except Err (Option ElementSelector) :=
  if expression = "data_syn" then Except.ok (some .dataSyn) else Except.ok none

/-- A start/stop group of `Parser._RANGE_PATTERN`: empty means the optional
group is absent, otherwise it must be `[0-9]{1,6}`; `none` means the whole
regex fails. -/
def elemTok (s : String) : Option (Option String) :=
  if s = "" then some none
  else if isElementTok s then some (some s) else none

/-- The step group of `Parser._RANGE_PATTERN`: like `elemTok` but allowing a
leading minus sign (`-?[0-9]{1,6}`). -/
def stepTok (s : String) : Option (Option String) :=
  if s = "" then some none
  else if isElementTok s then some (some s)
  else
    match s.data with
    | '-' :: rest => if isElementTok ⟨rest⟩ then some (some s) else none
    | _ => none

/-- Match of `Parser._RANGE_PATTERN`, the regex
`^(start)?:(stop)?(:(step)?)?$`: the three captured groups. -/
def rangePatternMatch (expression : String) :
    Option (Option String × Option String × Option String) :=
  match splitStr ':' expression with
  | [s, t] =>
      match elemTok s, elemTok t with
      | some sg, some tg => some (sg, tg, none)
      | _, _ => none
  | [s, t, p] =>
      match elemTok s, elemTok t, stepTok p with
      | some sg, some tg, some pg => some (sg, tg, pg)
      | _, _, _ => none
  | _ => none

example : rangePatternMatch ":" = some (none, none, none) := by rfl
example : rangePatternMatch "1:3" = some (some "1", some "3", none) := by rfl
example : rangePatternMatch "::-2" = some (none, none, some "-2") := by rfl
example : rangePatternMatch "1:3:2" = some (some "1", some "3", some "2") := by rfl
example : rangePatternMatch "1" = none := by rfl
example : rangePatternMatch "1:-2" = none := by rfl

/-- Python `int(s)` for an optionally minus-signed digit string, as matched
by the step group. -/
def pyIntOfString (s : String) : Int :=
  match s.data with
  | '-' :: rest => -(digitsToNat ⟨rest⟩ : Int)
  | _ => (digitsToNat s : Int)

/-- `Parser._range_expression`: on a regex match, normalize the bounds,
default the step to `1` (`int(match.group('step') or 1)`), and run the
`RangeSelector` constructor. -/
def range_expression (expression kind : String) : Except Err (Option ElementSelector) :=
  match rangePatternMatch expression with
  | none => Except.ok none
  | some (sg, tg, pg) =>
      match normalize_optional_element sg kind with
      | Except.error e => Except.error e
      | Except.ok start =>
          match normalize_optional_element tg kind with
          | Except.error e => Except.error e
          | Except.ok stop =>
              let step : Int := match pg with | none => 1 | some p => pyIntOfString p
              match mkRangeSelector kind expression start stop step with
              | Except.error e => Except.error e
              | Except.ok sel => Except.ok (some sel)

/-- `Parser._parse_sequence_expression`: try the handlers in their fixed
order and take the first match; no match is a `SelectionExpressionError`. -/
def parse_sequence_expression (expression : String) : Except Err ElementSelector := do
  match ← single_element_expression expression "sequence" with
  | some s => return s
  | none =>
  match ← list_expression expression "sequence" with
  | some s => return s
  | none =>
  match ← star_expression expression "sequence" with
  | some s => return s
  | none =>
  match ← data_expression expression with
  | some s => return s
  | none =>
  match ← data_syn_expression expression with
  | some s => return s
  | none =>
  match ← range_expression expression "sequence" with
  | some s => return s
  | none =>
      Except.error (.selectionExpressionError
        ("Invalid sequence selection expression: " ++ expression) expression)

/-- `Parser._parse_frame_expression`: like the sequence side but without the
named-literal handlers. -/
def parse_frame_expression (expression : String) : Except Err ElementSelector := do
  match ← single_element_expression expression "frame" with
  | some s => return s
  | none =>
  match ← list_expression expression "frame" with
  | some s => return s
  | none =>
  match ← star_expression expression "frame" with
  | some s => return s
  | none =>
  match ← range_expression expression "frame" with
  | some s => return s
  | none =>
      Except.error (.selectionExpressionError
        ("Invalid frame selection expression: " ++ expression) expression)

/-- `Parser._get_sequence_and_frame_expression`: exactly one `/`, both halves
non-empty. -/
def get_sequence_and_frame_expression (expression : String) : Except Err (String × String) :=
  let slashes := expression.data.count '/'
  if slashes = 0 then
    Except.error (.selectionExpressionError ("Expression contains no '/': " ++ expression)
      expression)
  else if slashes > 1 then
    Except.error (.selectionExpressionError
      ("Expression must contain only one '/': " ++ expression) expression)
  else
    let parts := splitStr '/' expression
    let sequenceExpression := parts.getD 0 ""
    let frameExpression := parts.getD 1 ""
    if sequenceExpression = "" then
      Except.error (.selectionExpressionError ("No Sequence Expression given: " ++ expression)
        expression)
    else if frameExpression = "" then
      Except.error (.selectionExpressionError ("No Frame Expression given: " ++ expression)
        expression)
    else Except.ok (sequenceExpression, frameExpression)

/-- `Parser.parse`: split the expression, parse both sides, and wrap any
failure from the side parsers (the `except Exception` block) into a
`SelectionExpressionError` for the whole expression. -/
def Parser.parse (expression : String) : Except Err Selector := do
  let (sequenceExpression, frameExpression) ← get_sequence_and_frame_expression expression
  let parsed : Except Err (ElementSelector × ElementSelector) := do
    let ss ← parse_sequence_expression sequenceExpression
    let fs ← parse_frame_expression frameExpression
    pure (ss, fs)
  match parsed with
  | Except.error _ =>
      Except.error (.selectionExpressionError
        ("Selection expression could not be parsed: " ++ expression) expression)
  | Except.ok (ss, fs) =>
      return { expression := expression, sequence_selector := ss, frame_selector := fs }

/-- Loop of `parsing.parse_selection_expressions`: parse in order, and on the
first `SelectionExpressionError` raise a `ValueError` naming the failing
expression. The reported index mirrors the source's f-string
`"... at index {0} in ..."`, whose `{0}` interpolates the literal `0` (not
the loop variable `index`), so every failure is reported at index 0. -/
def parse_selection_expressions_go : Nat → List String → Except Err (List Selector)
  | _, [] => Except.ok []
  | index, e :: rest =>
      match Parser.parse e with
      | Except.error _ => Except.error (.invalidSelectionExpression e 0)
      | Except.ok s =>
          match parse_selection_expressions_go (index + 1) rest with
          | Except.error err => Except.error err
          | Except.ok sels => Except.ok (s :: sels)

/-- `parsing.parse_selection_expressions`. -/
def parse_selection_expressions (expressions : List String) : Except Err (List Selector) :=
  parse_selection_expressions_go 0 expressions

example :
    Parser.parse "1/*" =
      Except.ok
        { expression := "1/*", sequence_selector := .single "sequence" "1" "0001",
          frame_selector := .star "frame" } := by rfl
example :
    Parser.parse "data_syn/000001" =
      Except.ok
        { expression := "data_syn/000001", sequence_selector := .dataSyn,
          frame_selector := .single "frame" "000001" "000001" } := by rfl
example :
    Parser.parse "2/[2,3,5]" =
      Except.ok
        { expression := "2/[2,3,5]", sequence_selector := .single "sequence" "2" "0002",
          frame_selector := .list "frame" "[2,3,5]" ["000002", "000003", "000005"] } := by rfl
example :
    Parser.parse "1/:" =
      Except.ok
        { expression := "1/:", sequence_selector := .single "sequence" "1" "0001",
          frame_selector := .range "frame" ":" none none 1 } := by rfl
example :
    Parser.parse "0000:0000/1" =
      Except.ok
        { expression := "0000:0000/1",
          sequence_selector := .range "sequence" "0000:0000" (some "0000") (some "0000") 1,
          frame_selector := .single "frame" "1" "000001" } := by rfl
example :
    Parser.parse "::0/1" =
      Except.error (.selectionExpressionError
        "Selection expression could not be parsed: ::0/1" "::0/1") := by rfl

/-- Lexicographic comparison of character lists by code point, the order
Python's `sorted` uses on strings. -/
def charListLt : List Char → List Char → Bool
  | [], [] => false
  | [], _ :: _ => true
  | _ :: _, [] => false
  | a :: as, b :: bs =>
      if a.toNat < b.toNat then true
      else if a.toNat = b.toNat then charListLt as bs
      else false

/-- Insert into an ascending list, keeping it ascending. -/
def insertSorted (x : String) : List String → List String
  | [] => [x]
  | y :: ys => if charListLt y.data x.data then y :: insertSorted x ys else x :: y :: ys

/-- Python `sorted` on a list of strings (insertion sort; the dataset's
identifier lists hold distinct strings, so tie order is immaterial). -/
def sortStrings (l : List String) : List String := l.foldr insertSorted []

example : sortStrings ["0002", "data_syn", "0000", "0001"] =
    ["0000", "0001", "0002", "data_syn"] := by rfl

/-- The inventory collaborator as `descriptor_creation.py` consumes it:
`dataset_access.get_available_frame_sequences()` and, per sequence, the
complete frame sets and the incomplete frame sets with their missing
file kinds (`frame_access.FrameSequence.get_available_frame_sets`). -/
structure DatasetAccess where
  available_frame_sequences : List String
  complete_frame_sets : String → List String
  incomplete_frame_sets : String → List (String × List String)

/-- The combined available-frame list the resolver hands to the frame-axis
selector: `sorted([*complete_frames, *incomplete_frames.keys()])`. -/
def availableFrames (d : DatasetAccess) (sequence : String) : List String :=
  sortStrings (d.complete_frame_sets sequence ++ (d.incomplete_frame_sets sequence).map Prod.fst)

/-- `datatypes.Descriptor`. -/
structure Descriptor where
  frame_sequence : String
  frame : String
  deriving DecidableEq, Repr

/-- First member of `set(selected_frames).difference(complete_frames)` —
the source takes `list(...)[0]` of an unordered set; the model picks the
first such frame in selection order, a fixed choice of a member. -/
def firstIncomplete (complete : List String) : List String → Option String
  | [] => none
  | f :: fs => if f ∈ complete then firstIncomplete complete fs else some f

/-- Per-sequence body of `DescriptorCreator._create_descriptors_from_selector`:
select from the combined frame list (an evaluator miss becomes the IOError
`"Frame is not available"`), reject any selected incomplete frame with the
IOError `"Files for frame missing"` naming the sequence, the frame and its
missing file kinds, and otherwise emit one descriptor per selected frame. -/
def create_for_sequence (d : DatasetAccess) (sel : Selector) (sequence : String) :
    Except Err (List Descriptor) :=
  let complete := d.complete_frame_sets sequence
  let incomplete := d.incomplete_frame_sets sequence
  match sel.select_frames (availableFrames d sequence) with
  | Except.error (.missingElement _ frame _) => Except.error (.ioFrameMissing sequence frame)
  | Except.error e => Except.error e
  | Except.ok selectedFrames =>
      match firstIncomplete complete selectedFrames with
      | some incompleteFrame =>
          Except.error (.ioFilesMissing sequence incompleteFrame
            ((incomplete.lookup incompleteFrame).getD []))
      | none => Except.ok (selectedFrames.map fun f => ⟨sequence, f⟩)

/-- The `for sequence in selected_sequences` loop: concatenate per-sequence
descriptors, aborting on the first error. -/
def processSequences (d : DatasetAccess) (sel : Selector) : List String → Except Err (List Descriptor)
  | [] => Except.ok []
  | s :: rest =>
      match create_for_sequence d sel s with
      | Except.error e => Except.error e
      | Except.ok ds =>
          match processSequences d sel rest with
          | Except.error e => Except.error e
          | Except.ok more => Except.ok (ds ++ more)

/-- `DescriptorCreator._create_descriptors_from_selector`: evaluate the
sequence axis against the sorted sequence inventory — only a
`MissingElementError` is caught and rewrapped as the IOError
`"Frame sequence is not available"`; any other evaluator error propagates
unchanged — then resolve each selected sequence in order. -/
def create_descriptors_from_selector (d : DatasetAccess) (sel : Selector) :
    Except Err (List Descriptor) :=
  match sel.select_sequences (sortStrings d.available_frame_sequences) with
  | Except.error (.missingElement _ element _) => Except.error (.ioSequenceMissing element)
  | Except.error e => Except.error e
  | Except.ok selected => processSequences d sel selected

/-- The `for selector in selectors` loop of `DescriptorCreator.get_descriptors`:
concatenate in selector order, aborting on the first error. -/
def processSelectors (d : DatasetAccess) : List Selector → Except Err (List Descriptor)
  | [] => Except.ok []
  | s :: rest =>
      match create_descriptors_from_selector d s with
      | Except.error e => Except.error e
      | Except.ok ds =>
          match processSelectors d rest with
          | Except.error e => Except.error e
          | Except.ok more => Except.ok (ds ++ more)

/-- `DescriptorCreator.get_descriptors`: parse the expressions, then resolve
each selector in order and concatenate the descriptors. -/
def get_descriptors (d : DatasetAccess) (expressions : List String) :
    Except Err (List Descriptor) :=
  match parse_selection_expressions expressions with
  | Except.error e => Except.error e
  | Except.ok selectors => processSelectors d selectors

/-- The inventory of the end-to-end scenario: sequences
`{0000, 0001, 0002, data_syn}`, complete frames `000001..000005` for `0001`,
`{000002, 000003, 000005}` for `0002` and `{000001}` for `data_syn`; no
incomplete frames. -/
def scenarioData : DatasetAccess where
  available_frame_sequences := ["0000", "0001", "0002", "data_syn"]
  complete_frame_sets s :=
    if s = "0001" then ["000001", "000002", "000003", "000004", "000005"]
    else if s = "0002" then ["000002", "000003", "000005"]
    else if s = "data_syn" then ["000001"]
    else []
  incomplete_frame_sets _ := []

/-- C1: End-to-end resolution: against an inventory with sequences
`{0000, 0001, 0002, data_syn}`, where `0001` has complete frames
`000001..000005`, `0002` has complete frames `{000002, 000003, 000005}` and
`data_syn` has frame `000001`, the expression list
`['1/*', '2/[2,3,5]', 'data_syn/000001']` resolves to exactly these 9
descriptors in this order: `(0001, 000001) .. (0001, 000005)`,
`(0002, 000002)`, `(0002, 000003)`, `(0002, 000005)`,
`(data_syn, 000001)`. -/
theorem c1_end_to_end_resolution :
    get_descriptors scenarioData ["1/*", "2/[2,3,5]", "data_syn/000001"] =
      Except.ok
        [⟨"0001", "000001"⟩, ⟨"0001", "000002"⟩, ⟨"0001", "000003"⟩, ⟨"0001", "000004"⟩,
          ⟨"0001", "000005"⟩, ⟨"0002", "000002"⟩, ⟨"0002", "000003"⟩, ⟨"0002", "000005"⟩,
          ⟨"data_syn", "000001"⟩] := by
  rfl

lemma range_select_expand_ok_ne_nil {e : String} {step : Int} {els : List String}
    {si ti : Option Nat} {xs : List String}
    (h : range_select_expand e step els si ti = Except.ok xs) : xs ≠ [] := by
  unfold range_select_expand at h
  simp only [] at h
  split at h
  · simp at h
  · next hne =>
      simp only [Except.ok.injEq] at h
      subst h
      exact hne

lemma range_select_stop_ok_ne_nil {kind e : String} {stop : Option String} {step : Int}
    {els : List String} {si : Option Nat} {xs : List String}
    (h : range_select_stop kind e stop step els si = Except.ok xs) : xs ≠ [] := by
  unfold range_select_stop at h
  cases hts : truthyOpt stop with
  | none =>
      rw [hts] at h
      exact range_select_expand_ok_ne_nil h
  | some t =>
      rw [hts] at h
      simp only [] at h
      cases hti : listIndex t els with
      | none => rw [hti] at h; simp at h
      | some ti => rw [hti] at h; exact range_select_expand_ok_ne_nil h

lemma range_select_ok_ne_nil {kind e : String} {start stop : Option String} {step : Int}
    {els : List String} {xs : List String}
    (h : range_select kind e start stop step els = Except.ok xs) : xs ≠ [] := by
  unfold range_select at h
  cases hts : truthyOpt start with
  | none =>
      rw [hts] at h
      exact range_select_stop_ok_ne_nil h
  | some s =>
      rw [hts] at h
      simp only [] at h
      cases hsi :
          listIndex s (if kind = "sequence" then els.filter (fun e => isDigitStr e) else els) with
      | none => rw [hsi] at h; simp at h
      | some si => rw [hsi] at h; exact range_select_stop_ok_ne_nil h

/-- The inventory of the `'0000:0000/1'` scenario: sequences
`{0000, 0001}`, each with one complete frame. -/
def equalBoundsData : DatasetAccess where
  available_frame_sequences := ["0000", "0001"]
  complete_frame_sets _ := ["000001"]
  incomplete_frame_sets _ := []

/-- C5: a range selector never resolves to an empty selection: an empty
slice expansion is reported as an `EmptySelection` error instead of an empty
list. Concretely, resolving `'0000:0000/1'` (equal bounds, step 1) fails
with `EmptySelection` for the range expression `0000:0000`. -/
theorem c5_empty_expansion_is_error :
    (∀ (kind e : String) (start stop : Option String) (step : Int) (els : List String),
        ElementSelector.select (.range kind e start stop step) els ≠ Except.ok []) ∧
    (∀ (e : String) (step : Int) (els : List String) (si ti : Option Nat),
        pySlice els si ti step = [] →
        range_select_expand e step els si ti =
          Except.error (.emptySelection ("No elements selected: " ++ e) e els)) ∧
    get_descriptors equalBoundsData ["0000:0000/1"] =
      Except.error (.emptySelection "No elements selected: 0000:0000" "0000:0000"
        ["0000", "0001"]) := by
  refine ⟨?_, ?_, by rfl⟩
  · intro kind e start stop step els h
    unfold ElementSelector.select at h
    split at h
    · simp at h
    · exact range_select_ok_ne_nil h rfl
  · intro e step els si ti hslice
    unfold range_select_expand
    simp [hslice]

/-- The inventory of the unwrapped-`EmptySelection` scenario for the
sequence axis. -/
def threeSeqData : DatasetAccess where
  available_frame_sequences := ["0001", "0002", "0003"]
  complete_frame_sets _ := ["000001"]
  incomplete_frame_sets _ := []

/-- C6 counterexample: a sequence-axis `EmptySelection` failure is NOT
re-reported as the `"Frame sequence is not available"` IOError: resolving
`'2:2/1'` (whose sequence range expands to nothing) surfaces the evaluator's
`EmptySelection` error itself. -/
theorem c6_empty_selection_not_wrapped :
    get_descriptors threeSeqData ["2:2/1"] =
      Except.error (.emptySelection "No elements selected: 2:2" "2:2"
        ["0001", "0002", "0003"]) := by
  rfl

/-- C6 (amended): a sequence-axis `MissingElementError` is rewrapped as the
`"Frame sequence is not available"` IOError naming the element; a
sequence-axis `EmptySelection` failure propagates as the evaluator's own
error, unwrapped; and in either case a failing selector aborts the whole
batch with its error — no partial descriptor list, no further selectors. -/
theorem c6_sequence_axis_failure_reporting :
    (∀ (d : DatasetAccess) (sel : Selector) (msg el : String) (els : List String),
        sel.select_sequences (sortStrings d.available_frame_sequences) =
            Except.error (.missingElement msg el els) →
        create_descriptors_from_selector d sel = Except.error (.ioSequenceMissing el)) ∧
    (∀ (d : DatasetAccess) (sel : Selector) (msg ex : String) (els : List String),
        sel.select_sequences (sortStrings d.available_frame_sequences) =
            Except.error (.emptySelection msg ex els) →
        create_descriptors_from_selector d sel =
          Except.error (.emptySelection msg ex els)) ∧
    (∀ (d : DatasetAccess) (sel : Selector) (rest : List Selector) (e : Err),
        create_descriptors_from_selector d sel = Except.error e →
        processSelectors d (sel :: rest) = Except.error e) := by
  refine ⟨?_, ?_, ?_⟩
  · intro d sel msg el els h
    unfold create_descriptors_from_selector
    rw [h]
  · intro d sel msg ex els h
    unfold create_descriptors_from_selector
    rw [h]
  · intro d sel rest e h
    unfold processSelectors
    rw [h]

/-- C7: the batch parser's failure report always names index 0: parsing
`['1/1', 'nodash']`, where the first expression parses fine and the second
(at index 1) is the one that fails, raises the `ValueError` whose message
interpolates the failing expression but the literal index 0 (the source
f-string says `at index {0}`, not `at index {index}`). -/
theorem c7_reported_index_is_literal_zero :
    Parser.parse "1/1" =
      Except.ok
        { expression := "1/1", sequence_selector := .single "sequence" "1" "0001",
          frame_selector := .single "frame" "1" "000001" } ∧
    Parser.parse "nodash" =
      Except.error (.selectionExpressionError "Expression contains no '/': nodash" "nodash") ∧
    parse_selection_expressions ["1/1", "nodash"] =
      Except.error (.invalidSelectionExpression "nodash" 0) := by
  exact ⟨by rfl, by rfl, by rfl⟩

/-- The inventory whose only sequence is `data_syn`. -/
def onlyDataSynData : DatasetAccess where
  available_frame_sequences := ["data_syn"]
  complete_frame_sets s := if s = "data_syn" then ["000001"] else []
  incomplete_frame_sets _ := []

/-- C10: the `data` selector on the non-empty sequence list `['data_syn']`
returns the empty list without raising, and resolving `'data/*'` against an
inventory whose only sequence is `data_syn` yields zero descriptors and no
error. -/
theorem c10_data_selector_empty_ok :
    ElementSelector.select .data ["data_syn"] = Except.ok [] ∧
    get_descriptors onlyDataSynData ["data/*"] = Except.ok [] := by
  exact ⟨by rfl, by rfl⟩

lemma firstIncomplete_of_mem {complete : List String} :
    ∀ {l : List String} {f : String}, f ∈ l → f ∉ complete →
      ∃ f0, firstIncomplete complete l = some f0 ∧ f0 ∈ l ∧ f0 ∉ complete := by
  intro l
  induction l with
  | nil => intro f hf _; cases hf
  | cons g gs ih =>
      intro f hf hnc
      by_cases hg : g ∈ complete
      · have hfg : f ≠ g := fun hx => hnc (hx ▸ hg)
        have hfgs : f ∈ gs := by
          cases hf with
          | head => exact absurd rfl hfg
          | tail _ h => exact h
        obtain ⟨f0, heq, hmem, hnc0⟩ := ih hfgs hnc
        exact ⟨f0, by simp [firstIncomplete, hg, heq], List.mem_cons_of_mem _ hmem, hnc0⟩
      · exact ⟨g, by simp [firstIncomplete, hg], List.mem_cons_self _ _, hg⟩

/-- The inventory of the incomplete-frame scenario: sequence `0001` has
frames `000001..000005`, of which `000003` is incomplete, missing `color`. -/
def incompleteFrameData : DatasetAccess where
  available_frame_sequences := ["0001"]
  complete_frame_sets s :=
    if s = "0001" then ["000001", "000002", "000004", "000005"] else []
  incomplete_frame_sets s := if s = "0001" then [("000003", ["color"])] else []

/-- C2: the frame axis is evaluated against the combined (complete ∪
incomplete, sorted) frame list, and if evaluation succeeds but a selected
frame is in the incomplete registry, the sequence resolves to the
`"Files for frame missing"` error naming the sequence, an incomplete
selected frame and its missing file kinds. Concretely, with frame `000003`
of `0001` incomplete (missing `color`), resolving `'1/:'` fails with exactly
that error naming `0001/000003` and `['color']`. -/
theorem c2_incomplete_frame_rejected :
    (∀ (d : DatasetAccess) (sel : Selector) (sequence : String) (frames : List String)
        (f : String),
        sel.select_frames (availableFrames d sequence) = Except.ok frames →
        f ∈ frames → f ∉ d.complete_frame_sets sequence →
        ∃ f0,
          create_for_sequence d sel sequence =
            Except.error (.ioFilesMissing sequence f0
              (((d.incomplete_frame_sets sequence).lookup f0).getD [])) ∧
          f0 ∈ frames ∧ f0 ∉ d.complete_frame_sets sequence) ∧
    get_descriptors incompleteFrameData ["1/:"] =
      Except.error (.ioFilesMissing "0001" "000003" ["color"]) := by
  refine ⟨?_, by rfl⟩
  intro d sel sequence frames f hsel hf hnc
  obtain ⟨f0, heq, hmem, hnc0⟩ := firstIncomplete_of_mem hf hnc
  refine ⟨f0, ?_, hmem, hnc0⟩
  unfold create_for_sequence
  simp only [] at hsel ⊢
  rw [hsel]
  simp [heq]

/-- C4 counterexample: with `start == stop` and `step > 0` the
`RangeSelector` constructor check passes and `'0000:0000/1'` parses
successfully — no `ValueError` at parse/construction time, contrary to the
claim's strict `start < stop` requirement. -/
theorem c4_equal_bounds_construction_succeeds :
    check_range_elements "0000:0000" (some "0000") (some "0000") 1 = Except.ok () ∧
    Parser.parse "0000:0000/1" =
      Except.ok
        { expression := "0000:0000/1",
          sequence_selector := .range "sequence" "0000:0000" (some "0000") (some "0000") 1,
          frame_selector := .single "frame" "1" "000001" } := by
  exact ⟨by rfl, by rfl⟩

/-- C4 (amended): with both bounds present (and truthy), construction
succeeds exactly when the step is non-zero, a positive step comes with
`int(start) ≤ int(stop)`, and a negative step with `int(start) ≥ int(stop)`;
so the violations rejected at parse/construction time are the strict
inversions (and a zero step), while `start == stop` passes construction and
only fails later, at evaluation, with `EmptySelection`. -/
theorem c4_range_sign_check (e s t : String) (step : Int) (hs : s ≠ "") (ht : t ≠ "") :
    check_range_elements e (some s) (some t) step = Except.ok () ↔
      step ≠ 0 ∧ (step > 0 → digitsToNat s ≤ digitsToNat t) ∧
        (step < 0 → digitsToNat t ≤ digitsToNat s) := by
  have hs' : truthyOpt (some s) = some s := by simp [truthyOpt, hs]
  have ht' : truthyOpt (some t) = some t := by simp [truthyOpt, ht]
  unfold check_range_elements
  rw [hs', ht']
  by_cases h0 : step = 0
  · simp [h0]
  · rw [if_neg h0]
    simp only []
    by_cases h1 : step > 0 ∧ digitsToNat s > digitsToNat t
    · rw [if_pos h1]
      constructor
      · intro h; simp at h
      · rintro ⟨-, hle, -⟩
        exact absurd (hle h1.1) (by omega)
    · rw [if_neg h1]
      by_cases h2 : step < 0 ∧ digitsToNat s < digitsToNat t
      · rw [if_pos h2]
        constructor
        · intro h; simp at h
        · rintro ⟨-, -, hge⟩
          exact absurd (hge h2.1) (by omega)
      · rw [if_neg h2]
        push_neg at h1 h2
        exact ⟨fun _ => ⟨h0, fun hp => h1 hp, fun hn => h2 hn⟩, fun _ => rfl⟩

/-- C4 witness: at `start = '0001'`, `stop = '0002'`, `step = 1` the check
succeeds. -/
theorem c4_range_sign_check_witness :
    check_range_elements "1:2" (some "0001") (some "0002") 1 = Except.ok () :=
  (c4_range_sign_check "1:2" "0001" "0002" 1 (by decide) (by decide)).mpr (by decide)

lemma sliceGo_pos_one (l : List String) :
    ∀ (fuel i j : Nat), j ≤ l.length → j - i ≤ fuel →
      sliceGo l (j : Int) 1 fuel (i : Int) = (l.drop i).take (j - i) := by
  intro fuel
  induction fuel with
  | zero =>
      intro i j _ hf
      have h0 : j - i = 0 := Nat.le_zero.mp hf
      rw [h0]
      simp [sliceGo]
  | succ fuel ih =>
      intro i j hj hf
      by_cases hij : i < j
      · have hcond : ((1:Int) > 0 ∧ (i:Int) < (j:Int)) ∨ ((1:Int) < 0 ∧ (i:Int) > (j:Int)) :=
          Or.inl ⟨by decide, by exact_mod_cast hij⟩
        have hi_len : i < l.length := lt_of_lt_of_le hij hj
        have hget : l[i]? = some (l[i]) := List.getElem?_eq_getElem hi_len
        have hcast : (i : Int) + 1 = ((i + 1 : Nat) : Int) := by push_cast; ring
        simp only [sliceGo, if_pos hcond]
        have htoNat : ((i : Int)).toNat = i := rfl
        rw [htoNat, hget, hcast, ih (i + 1) j hj (by omega)]
        rw [List.drop_eq_getElem_cons hi_len]
        have hji : j - i = (j - (i + 1)) + 1 := by omega
        rw [hji, List.take_succ_cons]
        simp
      · have hcond : ¬(((1:Int) > 0 ∧ (i:Int) < (j:Int)) ∨ ((1:Int) < 0 ∧ (i:Int) > (j:Int))) := by
          rintro (⟨-, hlt⟩ | ⟨hneg, -⟩)
          · exact hij (by exact_mod_cast hlt)
          · exact absurd hneg (by decide)
        simp only [sliceGo, if_neg hcond]
        have h0 : j - i = 0 := by omega
        rw [h0]
        simp

lemma sliceGo_neg_one (l : List String) :
    ∀ (fuel s i : Nat), s < l.length → s - i ≤ fuel →
      sliceGo l (i : Int) (-1) fuel (s : Int) = ((l.drop (i + 1)).take (s - i)).reverse := by
  intro fuel
  induction fuel with
  | zero =>
      intro s i _ hf
      have h0 : s - i = 0 := Nat.le_zero.mp hf
      rw [h0]
      simp [sliceGo]
  | succ fuel ih =>
      intro s i hs hf
      by_cases his : i < s
      · have hcond : ((-1:Int) > 0 ∧ (s:Int) < (i:Int)) ∨ ((-1:Int) < 0 ∧ (s:Int) > (i:Int)) :=
          Or.inr ⟨by decide, by exact_mod_cast his⟩
        have hget : l[s]? = some (l[s]) := List.getElem?_eq_getElem hs
        have hcast : (s : Int) + (-1) = ((s - 1 : Nat) : Int) := by omega
        simp only [sliceGo, if_pos hcond]
        have htoNat : ((s : Int)).toNat = s := rfl
        rw [htoNat, hget, hcast, ih (s - 1) i (by omega) (by omega)]
        have hsi : s - i = (s - 1 - i) + 1 := by omega
        rw [hsi, List.take_succ]
        have hidx : (l.drop (i + 1))[s - 1 - i]? = some (l[s]) := by
          rw [List.getElem?_drop]
          have : i + 1 + (s - 1 - i) = s := by omega
          rw [this, hget]
        rw [hidx]
        simp
      · have hcond : ¬(((-1:Int) > 0 ∧ (s:Int) < (i:Int)) ∨ ((-1:Int) < 0 ∧ (s:Int) > (i:Int))) := by
          rintro (⟨hpos, -⟩ | ⟨-, hgt⟩)
          · exact absurd hpos (by decide)
          · exact his (by exact_mod_cast hgt)
        simp only [sliceGo, if_neg hcond]
        have h0 : s - i = 0 := by omega
        rw [h0]
        simp

lemma pySlice_forward (l : List String) (i j : Nat) (hi : i < l.length) (hj : j ≤ l.length) :
    pySlice l (some i) (some j) 1 = (l.drop i).take (j - i) := by
  unfold pySlice
  rw [if_pos (by decide : (1:Int) > 0)]
  simp only []
  have h1 : min (i : Int) (l.length : Int) = (i : Int) :=
    min_eq_left (by exact_mod_cast hi.le)
  have h2 : min (j : Int) (l.length : Int) = (j : Int) :=
    min_eq_left (by exact_mod_cast hj)
  rw [h1, h2]
  exact sliceGo_pos_one l l.length i j hj (by omega)

lemma pySlice_backward (l : List String) (i j : Nat) (hi : i < l.length) (hj : j < l.length) :
    pySlice l (some j) (some i) (-1) = ((l.drop (i + 1)).take (j - i)).reverse := by
  unfold pySlice
  rw [if_neg (by decide : ¬((-1:Int) > 0))]
  simp only []
  have h1 : min (j : Int) ((l.length : Int) - 1) = (j : Int) := min_eq_left (by omega)
  have h2 : min (i : Int) ((l.length : Int) - 1) = (i : Int) := min_eq_left (by omega)
  rw [h1, h2]
  exact sliceGo_neg_one l l.length j i hj (by omega)

lemma listIndex_spec :
    ∀ {l : List String} {a : String} {i : Nat},
      listIndex a l = some i → i < l.length ∧ l[i]? = some a := by
  intro l
  induction l with
  | nil => intro a i h; simp [listIndex] at h
  | cons y ys ih =>
      intro a i h
      unfold listIndex at h
      by_cases hy : y = a
      · rw [if_pos hy] at h
        simp only [Option.some.injEq] at h
        subst h
        exact ⟨by simp, by simp [hy]⟩
      · rw [if_neg hy] at h
        cases hx : listIndex a ys with
        | none => rw [hx] at h; simp at h
        | some i0 =>
            rw [hx] at h
            simp only [Option.map_some', Option.some.injEq] at h
            subst h
            obtain ⟨h1, h2⟩ := ih hx
            exact ⟨by simpa using Nat.succ_lt_succ h1, by simpa using h2⟩

/-- `range_select` on the frame axis does not filter the element list. -/
lemma range_select_frame (e : String) (a b : Option String) (st : Int) (l : List String) :
    range_select "frame" e a b st l =
      (match truthyOpt a with
       | some s =>
           match listIndex s l with
           | none =>
               Except.error (.missingElement ("Range start element missing: " ++ e) s l)
           | some si => range_select_stop "frame" e b st l (some si)
       | none => range_select_stop "frame" e b st l none) := by
  rfl

/-- A successful frame-axis range selection with both bounds present: both
bounds resolve to indices and the result is the non-empty Python slice. -/
lemma select_range_frame_ok {e a b : String} {st : Int} {l xs : List String}
    (hL : l ≠ []) (ha : a ≠ "") (hb : b ≠ "")
    (h : ElementSelector.select (.range "frame" e (some a) (some b) st) l = Except.ok xs) :
    ∃ i j, listIndex a l = some i ∧ listIndex b l = some j ∧
      xs = pySlice l (some i) (some j) st ∧ xs ≠ [] := by
  unfold ElementSelector.select at h
  rw [if_neg hL] at h
  simp only [] at h
  rw [range_select_frame] at h
  rw [show truthyOpt (some a) = some a by simp [truthyOpt, ha]] at h
  simp only [] at h
  cases hia : listIndex a l with
  | none => rw [hia] at h; simp at h
  | some i =>
      rw [hia] at h
      unfold range_select_stop at h
      rw [show truthyOpt (some b) = some b by simp [truthyOpt, hb]] at h
      simp only [] at h
      cases hjb : listIndex b l with
      | none => rw [hjb] at h; simp at h
      | some j =>
          rw [hjb] at h
          unfold range_select_expand at h
          simp only [] at h
          split at h
          · simp at h
          · next hne =>
              simp only [Except.ok.injEq] at h
              exact ⟨i, j, rfl, rfl, h.symm, h ▸ hne⟩

/-- C3 (amended): the half-open slice semantics shifts the round-trip by one
element at each end: whenever both range constructions pass the constructor
check and both evaluations succeed (hence are non-empty), the forward
selection followed by its stop bound equals the start bound followed by the
reverse of the backward selection:
`evaluate(Range(a,b,1), L) ++ [b] == [a] ++ reverse(evaluate(Range(b,a,-1), L))`. -/
theorem c3_range_reversal_amended (L : List String) (e1 e2 a b : String)
    (xs ys : List String) (ha : a ≠ "") (hb : b ≠ "")
    (_hc1 : check_range_elements e1 (some a) (some b) 1 = Except.ok ())
    (_hc2 : check_range_elements e2 (some b) (some a) (-1) = Except.ok ())
    (hfwd : ElementSelector.select (.range "frame" e1 (some a) (some b) 1) L = Except.ok xs)
    (hbwd : ElementSelector.select (.range "frame" e2 (some b) (some a) (-1)) L =
      Except.ok ys) :
    xs ++ [b] = a :: ys.reverse := by
  have hL : L ≠ [] := by
    intro hnil
    subst hnil
    simp [ElementSelector.select] at hfwd
  obtain ⟨i, j, hia, hjb, hxs, hxne⟩ := select_range_frame_ok hL ha hb hfwd
  obtain ⟨j', i', hjb', hia', hys, hyne⟩ := select_range_frame_ok hL hb ha hbwd
  rw [hjb] at hjb'
  rw [hia] at hia'
  cases hjb'
  cases hia'
  obtain ⟨hilen, hgia⟩ := listIndex_spec hia
  obtain ⟨hjlen, hgjb⟩ := listIndex_spec hjb
  rw [pySlice_forward L i j hilen hjlen.le] at hxs
  rw [pySlice_backward L i j hilen hjlen] at hys
  have hij : i < j := by
    by_contra hc
    apply hxne
    rw [hxs]
    have h0 : j - i = 0 := by omega
    rw [h0]
    simp
  have hLi : L[i] = a := by
    rw [List.getElem?_eq_getElem hilen] at hgia
    exact Option.some.inj hgia
  rw [hxs, hys, List.reverse_reverse]
  rw [List.drop_eq_getElem_cons hilen, hLi]
  have hji : j - i = (j - i - 1) + 1 := by omega
  rw [hji, List.take_succ_cons, List.cons_append]
  congr 1
  rw [List.take_succ]
  congr 1
  rw [List.getElem?_drop]
  have hidx : i + 1 + (j - i - 1) = j := by omega
  rw [hidx, hgjb]
  rfl

/-- C3 counterexample: on `L = [000001, 000002, 000003]` with `a = 000001`,
`b = 000003`, both ranges are constructible and both evaluations are
non-empty, yet the forward result `[000001, 000002]` is not the reverse of
the backward result `[000003, 000002]` — slice semantics include the start
and exclude the stop on each side. -/
theorem c3_round_trip_fails :
    check_range_elements "1:3" (some "000001") (some "000003") 1 = Except.ok () ∧
    check_range_elements "3:1:-1" (some "000003") (some "000001") (-1) = Except.ok () ∧
    ElementSelector.select (.range "frame" "1:3" (some "000001") (some "000003") 1)
        ["000001", "000002", "000003"] = Except.ok ["000001", "000002"] ∧
    ElementSelector.select (.range "frame" "3:1:-1" (some "000003") (some "000001") (-1))
        ["000001", "000002", "000003"] = Except.ok ["000003", "000002"] ∧
    (["000001", "000002"] : List String) ≠ List.reverse ["000003", "000002"] := by
  exact ⟨by rfl, by rfl, by rfl, by rfl, by decide⟩

/-- C3 witness: the amended identity at the concrete instance of the
counterexample. -/
theorem c3_range_reversal_amended_witness :
    (["000001", "000002"] : List String) ++ ["000003"] =
      "000001" :: (["000003", "000002"] : List String).reverse :=
  c3_range_reversal_amended ["000001", "000002", "000003"] "1:3" "3:1:-1" "000001" "000003"
    ["000001", "000002"] ["000003", "000002"] (by decide) (by decide) (by rfl) (by rfl)
    (by rfl) (by rfl)

lemma digitChar_toNat {d : Nat} (hd : d < 10) : (Nat.digitChar d).toNat = 48 + d := by
  interval_cases d <;> rfl

lemma digitChar_isDigit {d : Nat} (hd : d < 10) : isDigitChar (Nat.digitChar d) = true := by
  interval_cases d <;> rfl

lemma natToDigitsAux_all_digits :
    ∀ (fuel n : Nat), ∀ c ∈ natToDigitsAux fuel n, isDigitChar c = true := by
  intro fuel
  induction fuel with
  | zero => intro n c hc; simp [natToDigitsAux] at hc
  | succ fuel ih =>
      intro n c hc
      unfold natToDigitsAux at hc
      split at hc
      · simp at hc
      · rcases List.mem_append.mp hc with hmem | hmem
        · exact ih (n / 10) c hmem
        · have hc10 : n % 10 < 10 := Nat.mod_lt n (by norm_num)
          rw [List.mem_singleton.mp hmem]
          exact digitChar_isDigit hc10

lemma foldl_digitStep_natToDigitsAux :
    ∀ (fuel n : Nat), n ≤ fuel → ∀ a,
      (natToDigitsAux fuel n).foldl digitStep a =
        a * 10 ^ (natToDigitsAux fuel n).length + n := by
  intro fuel
  induction fuel with
  | zero =>
      intro n hn a
      have h0 : n = 0 := Nat.le_zero.mp hn
      simp [natToDigitsAux, h0]
  | succ fuel ih =>
      intro n hn a
      unfold natToDigitsAux
      by_cases h0 : n = 0
      · simp [h0]
      · rw [if_neg h0]
        have hdiv : n / 10 ≤ fuel := by
          have : n / 10 < n := Nat.div_lt_self (Nat.pos_of_ne_zero h0) (by norm_num)
          omega
        rw [List.foldl_append, ih (n / 10) hdiv a]
        have hm10 : n % 10 < 10 := Nat.mod_lt n (by norm_num)
        simp only [List.foldl_cons, List.foldl_nil, List.length_append, List.length_cons,
          List.length_nil]
        unfold digitStep
        rw [digitChar_toNat hm10]
        have hdm : 10 * (n / 10) + n % 10 = n := Nat.div_add_mod n 10
        have hsub : 48 + n % 10 - 48 = n % 10 := by omega
        rw [hsub]
        calc 10 * (a * 10 ^ (natToDigitsAux fuel (n / 10)).length + n / 10) + n % 10
            = a * 10 ^ ((natToDigitsAux fuel (n / 10)).length + 0 + 1) +
                (10 * (n / 10) + n % 10) := by ring
          _ = a * 10 ^ ((natToDigitsAux fuel (n / 10)).length + 0 + 1) + n := by rw [hdm]

lemma natToDigitsAux_length :
    ∀ (fuel n k : Nat), n ≤ fuel → n < 10 ^ k → (natToDigitsAux fuel n).length ≤ k := by
  intro fuel
  induction fuel with
  | zero => intro n k _ _; simp [natToDigitsAux]
  | succ fuel ih =>
      intro n k hn hk
      unfold natToDigitsAux
      by_cases h0 : n = 0
      · simp [h0]
      · rw [if_neg h0]
        cases k with
        | zero =>
            simp only [pow_zero, Nat.lt_one_iff] at hk
            exact absurd hk h0
        | succ k =>
            have hdiv : n / 10 ≤ fuel := by
              have : n / 10 < n := Nat.div_lt_self (Nat.pos_of_ne_zero h0) (by norm_num)
              omega
            have hdivk : n / 10 < 10 ^ k := by
              rw [Nat.div_lt_iff_lt_mul (by norm_num : 0 < 10)]
              calc n < 10 ^ (k + 1) := hk
                _ = 10 ^ k * 10 := by rw [pow_succ]
            have := ih (n / 10) k hdiv hdivk
            simp only [List.length_append, List.length_cons, List.length_nil]
            omega

lemma digitsToNat_natRepr (n : Nat) : digitsToNat (natRepr n) = n := by
  unfold natRepr digitsToNat
  by_cases h0 : n = 0
  · simp [h0, digitStep]
  · rw [if_neg h0]
    show (natToDigitsAux (n + 1) n).foldl digitStep 0 = n
    rw [foldl_digitStep_natToDigitsAux (n + 1) n (Nat.le_succ n) 0]
    simp

lemma natRepr_length_le {n k : Nat} (hk : n < 10 ^ k) (hk1 : 1 ≤ k) :
    (natRepr n).length ≤ k := by
  unfold natRepr
  by_cases h0 : n = 0
  · simp [h0]
    exact hk1
  · rw [if_neg h0]
    show (natToDigitsAux (n + 1) n).length ≤ k
    exact natToDigitsAux_length (n + 1) n k (Nat.le_succ n) hk

lemma natRepr_all_digits (n : Nat) : ∀ c ∈ (natRepr n).data, isDigitChar c = true := by
  unfold natRepr
  by_cases h0 : n = 0
  · rw [if_pos h0]
    intro c hc
    simp at hc
    rw [hc]
    rfl
  · rw [if_neg h0]
    exact natToDigitsAux_all_digits (n + 1) n

lemma natRepr_ne_nil (n : Nat) : (natRepr n).data ≠ [] := by
  unfold natRepr
  by_cases h0 : n = 0
  · rw [if_pos h0]
    simp
  · rw [if_neg h0]
    show natToDigitsAux (n + 1) n ≠ []
    unfold natToDigitsAux
    rw [if_neg h0]
    simp

lemma zeroPad_data (w n : Nat) :
    (zeroPad w n).data = List.replicate (w - (natRepr n).length) '0' ++ (natRepr n).data := by
  rfl

lemma zeroPad_length {w n : Nat} (h : (natRepr n).length ≤ w) : (zeroPad w n).length = w := by
  show (zeroPad w n).data.length = w
  rw [zeroPad_data]
  simp only [List.length_append, List.length_replicate]
  have : (natRepr n).data.length = (natRepr n).length := rfl
  omega

lemma isDigitStr_zeroPad (w n : Nat) : isDigitStr (zeroPad w n) = true := by
  unfold isDigitStr
  rw [zeroPad_data]
  apply (Bool.and_eq_true _ _).mpr
  constructor
  · have hne : List.replicate (w - (natRepr n).length) '0' ++ (natRepr n).data ≠ [] := by
      intro h
      rcases List.append_eq_nil.mp h with ⟨-, h2⟩
      exact natRepr_ne_nil n h2
    simp [hne]
  · rw [List.all_eq_true]
    intro c hc
    rcases List.mem_append.mp hc with hm | hm
    · rw [List.eq_of_mem_replicate hm]
      rfl
    · exact natRepr_all_digits n c hm

lemma foldl_digitStep_replicate_zero :
    ∀ k, List.foldl digitStep 0 (List.replicate k '0') = 0 := by
  intro k
  induction k with
  | zero => rfl
  | succ k ih => simpa [List.replicate_succ, digitStep] using ih

lemma digitsToNat_zeroPad (w n : Nat) : digitsToNat (zeroPad w n) = n := by
  unfold digitsToNat
  rw [zeroPad_data, List.foldl_append, foldl_digitStep_replicate_zero]
  exact digitsToNat_natRepr n

lemma foldl_digitStep_lt :
    ∀ (l : List Char) (a : Nat), (∀ c ∈ l, isDigitChar c = true) →
      l.foldl digitStep a < (a + 1) * 10 ^ l.length := by
  intro l
  induction l with
  | nil => intro a _; simp
  | cons c l ih =>
      intro a hall
      have hc : 48 ≤ c.toNat ∧ c.toNat ≤ 57 := by
        have := hall c (List.mem_cons_self c l)
        simpa [isDigitChar] using this
      have htail : ∀ x ∈ l, isDigitChar x = true := fun x hx =>
        hall x (List.mem_cons_of_mem c hx)
      simp only [List.foldl_cons, List.length_cons]
      calc l.foldl digitStep (digitStep a c) < (digitStep a c + 1) * 10 ^ l.length :=
            ih (digitStep a c) htail
        _ ≤ ((10 * a + 9) + 1) * 10 ^ l.length := by
            apply Nat.mul_le_mul_right
            unfold digitStep
            omega
        _ = (a + 1) * 10 ^ (l.length + 1) := by
            rw [pow_succ]
            ring

lemma digitsToNat_lt {s : String} {k : Nat} (hd : isDigitStr s = true) (hl : s.length ≤ k) :
    digitsToNat s < 10 ^ k := by
  have hall : ∀ c ∈ s.data, isDigitChar c = true := by
    intro c hc
    have := (Bool.and_eq_true _ _ |>.mp hd).2
    exact (List.all_eq_true.mp this) c hc
  have h1 := foldl_digitStep_lt s.data 0 hall
  simp only [Nat.zero_add, Nat.one_mul] at h1
  exact lt_of_lt_of_le h1 (Nat.pow_le_pow_right (by norm_num) hl)

/-- Zero-padding a digit string's value to a width at least its length gives
a digit string of exactly that width with the same value. -/
lemma normalize_pad_spec (w : Nat) (s : String) (hd : isDigitStr s = true)
    (hl : s.length ≤ w) (hw : 1 ≤ w) :
    (zeroPad w (digitsToNat s)).length = w ∧
      isDigitStr (zeroPad w (digitsToNat s)) = true ∧
      digitsToNat (zeroPad w (digitsToNat s)) = digitsToNat s := by
  have hlt : digitsToNat s < 10 ^ w := digitsToNat_lt hd hl
  have hrep : (natRepr (digitsToNat s)).length ≤ w := natRepr_length_le hlt hw
  exact ⟨zeroPad_length hrep, isDigitStr_zeroPad w (digitsToNat s),
    digitsToNat_zeroPad w (digitsToNat s)⟩

/-- C8: for every digit string `s` within the axis width (4 on the sequence
axis, 6 on the frame axis), normalization succeeds, the result is a digit
string zero-padded to exactly the canonical width with `s`'s numeric value,
and normalization is idempotent: applied to its own output it returns that
output unchanged. -/
theorem c8_normalize_pads_and_idempotent (s : String) (hd : isDigitStr s = true) :
    (s.length ≤ 4 →
      ∃ r, normalize_numbered_sequence_selection_item s = Except.ok r ∧
        r.length = 4 ∧ isDigitStr r = true ∧ digitsToNat r = digitsToNat s ∧
        normalize_numbered_sequence_selection_item r = Except.ok r) ∧
    (s.length ≤ 6 →
      ∃ r, normalize_numbered_frame_selection_item s = Except.ok r ∧
        r.length = 6 ∧ isDigitStr r = true ∧ digitsToNat r = digitsToNat s ∧
        normalize_numbered_frame_selection_item r = Except.ok r) := by
  constructor
  · intro hl
    obtain ⟨hlen, hdig, hval⟩ := normalize_pad_spec 4 s hd hl (by norm_num)
    refine ⟨zeroPad 4 (digitsToNat s), ?_, hlen, hdig, hval, ?_⟩
    · unfold normalize_numbered_sequence_selection_item
      rw [if_pos ⟨hd, hl⟩]
    · unfold normalize_numbered_sequence_selection_item
      rw [if_pos ⟨hdig, le_of_eq hlen⟩, hval]
  · intro hl
    obtain ⟨hlen, hdig, hval⟩ := normalize_pad_spec 6 s hd hl (by norm_num)
    refine ⟨zeroPad 6 (digitsToNat s), ?_, hlen, hdig, hval, ?_⟩
    · unfold normalize_numbered_frame_selection_item
      rw [if_pos ⟨hd, hl⟩]
    · unfold normalize_numbered_frame_selection_item
      rw [if_pos ⟨hdig, le_of_eq hlen⟩, hval]

/-- C8 witness: normalization of the digit string `'7'` on both axes. -/
theorem c8_normalize_pads_and_idempotent_witness :
    (∃ r, normalize_numbered_sequence_selection_item "7" = Except.ok r ∧
      r.length = 4 ∧ isDigitStr r = true ∧ digitsToNat r = digitsToNat "7" ∧
      normalize_numbered_sequence_selection_item r = Except.ok r) ∧
    (∃ r, normalize_numbered_frame_selection_item "7" = Except.ok r ∧
      r.length = 6 ∧ isDigitStr r = true ∧ digitsToNat r = digitsToNat "7" ∧
      normalize_numbered_frame_selection_item r = Except.ok r) :=
  ⟨(c8_normalize_pads_and_idempotent "7" (by rfl)).1 (by decide),
   (c8_normalize_pads_and_idempotent "7" (by rfl)).2 (by decide)⟩

end YcbVideo
